import Mathlib

/-!
# PLUMBUS backup orchestration — shallow embedding

A shallow embedding of the backup orchestration core of the PLUMBUS
repository (`backend/backup_manager.py` together with the store operations
of `backend/database.py` that it calls), with theorems checking the
natural-language specification against it.

Modelling conventions:
* Python dict rows become Lean structures; SQL `NULL` becomes `Option`.
* Python truthiness tests on optional strings (`if not job['schedule']`,
  `if client.get('key_path')`) become the `truthy` helper below.
* The external process run (`subprocess.run` with `timeout=3600`) is a
  parameter `proc : List String → ProcResult`: given the constructed
  command it yields the exit outcome, a timeout, or another raised fault.
* The local filesystem walk over the artifact directory (`os.walk` in
  `_calculate_directory_size` / `_count_files`) is modelled by the
  `FsTree` type; sizes from `os.path.getsize` are nonnegative, hence `Nat`.
* Wall-clock readings (`datetime.now()`) are explicit string parameters,
  one per call site.
* Store calls are interpreted by explicit state passing on `Database`,
  and every call is also logged in a `DbOp` trace so that frame and
  single-finalization properties can be stated.
-/

namespace Plumbus

/-- Emptiness of a string, computed on its character list (equivalent to
`String.isEmpty`, but reducible by the kernel). -/
def strIsEmpty (s : String) : Bool := s.data.isEmpty

/-- Python truthiness of an optional string value: `None` and `""` are
falsy, every other string is truthy. -/
def truthy : Option String → Bool
  | none => false
  | some s => !strIsEmpty s

/-- Worker for `pySplit`: walk the characters, accumulating the current
fragment in reverse; whitespace ends a fragment, and empty fragments are
dropped. -/
def splitWsAux : List Char → List Char → List String
  | [], acc => if acc.isEmpty then [] else [String.mk acc.reverse]
  | c :: cs, acc =>
    if c.isWhitespace then
      if acc.isEmpty then splitWsAux cs []
      else String.mk acc.reverse :: splitWsAux cs []
    else splitWsAux cs (c :: acc)

/-- Python `str.split()` with no separator argument: split on runs of
whitespace, with no empty fragments. -/
def pySplit (s : String) : List String := splitWsAux s.data []

/-- Python `a or b` on strings: `a` when non-empty, else `b`. -/
def pyOrStr (a b : String) : String :=
  if strIsEmpty a then b else a

/-- Python `s.startswith('/')`: the first character is `'/'`. -/
def startsWithSlash (s : String) : Bool :=
  match s.data with
  | [] => false
  | c :: _ => c == '/'

/-- A row of the `clients` table, as returned by `Database.get_client`. -/
structure Client where
  id : Nat
  name : String
  host : String
  port : Nat
  username : String
  password : Option String
  keyPath : Option String
  useSudo : Bool
deriving Repr, DecidableEq

/-- A row of the `jobs` table, as returned by `Database.get_job`. -/
structure Job where
  id : Nat
  clientId : Nat
  name : String
  sourcePath : String
  schedule : Option String
  enabled : Bool
  lastRun : Option String
deriving Repr, DecidableEq

/-- A row of the `backups` table (one Run record). -/
structure BackupRec where
  id : Nat
  jobId : Nat
  status : String
  startTime : String
  endTime : Option String
  sizeBytes : Option Nat
  fileCount : Option Nat
  errorMessage : Option String
  backupPath : Option String
deriving Repr, DecidableEq

/-- The persistent store: the three tables of `backend/database.py`.
`backups` is kept most-recent-first (new rows are prepended), matching
`get_all_backups`'s `ORDER BY start_time DESC` for rows inserted at
monotonically increasing times. -/
structure Database where
  clients : List Client
  jobs : List Job
  backups : List BackupRec
  nextBackupId : Nat
deriving Repr, DecidableEq

/-- `Database.get_client`: `SELECT * FROM clients WHERE id = ?`. -/
def Database.getClient (db : Database) (clientId : Nat) : Option Client :=
  db.clients.find? (fun c => c.id == clientId)

/-- `Database.get_job`: `SELECT j.* ... FROM jobs j ... WHERE j.id = ?`
(the joined client columns are not used by the orchestration core). -/
def Database.getJob (db : Database) (jobId : Nat) : Option Job :=
  db.jobs.find? (fun j => j.id == jobId)

/-- `Database.get_backup`: `SELECT b.* ... FROM backups b ... WHERE b.id = ?`
(the joined `j.source_path` column is recovered through `getJob` at use
sites, which is equivalent since both read the same `jobs` table). -/
def Database.getBackup (db : Database) (backupId : Nat) : Option BackupRec :=
  db.backups.find? (fun b => b.id == backupId)

/-- `Database.get_all_backups(limit)`: the most recent at-most-`limit`
backup rows. -/
def Database.getAllBackups (db : Database) (limit : Nat) : List BackupRec :=
  db.backups.take limit

/-- `Database.add_backup`: INSERT a new backups row with the given fields
and all other columns NULL. The row id handed back to the caller
(`cursor.lastrowid`) is `db.nextBackupId`. -/
def Database.addBackup (db : Database) (jobId : Nat) (status startTime backupPath : String) :
    Database :=
  { db with
      backups := { id := db.nextBackupId, jobId := jobId, status := status,
                   startTime := startTime, endTime := none,
                   sizeBytes := none, fileCount := none,
                   errorMessage := none, backupPath := some backupPath } :: db.backups,
      nextBackupId := db.nextBackupId + 1 }

/-- Field update of one backups row, following `Database.update_backup`:
`status`, `end_time` and `error_message` are written only when truthy
(a passed-in empty string is dropped); `size_bytes` and `file_count` are
written whenever they are not `None` (so an explicit 0 is stored). -/
def applyBackupUpdate (b : BackupRec) (status endTime : Option String)
    (sizeBytes fileCount : Option Nat) (errorMessage : Option String) : BackupRec :=
  let b := match status with
    | some s => if strIsEmpty s then b else { b with status := s }
    | none => b
  let b := match endTime with
    | some s => if strIsEmpty s then b else { b with endTime := some s }
    | none => b
  let b := match sizeBytes with
    | some n => { b with sizeBytes := some n }
    | none => b
  let b := match fileCount with
    | some n => { b with fileCount := some n }
    | none => b
  match errorMessage with
    | some s => if strIsEmpty s then b else { b with errorMessage := some s }
    | none => b

/-- `Database.update_backup`: apply `applyBackupUpdate` to the row with the
given id. -/
def Database.updateBackup (db : Database) (backupId : Nat) (status endTime : Option String)
    (sizeBytes fileCount : Option Nat) (errorMessage : Option String) : Database :=
  { db with backups := db.backups.map (fun b =>
      if b.id == backupId then
        applyBackupUpdate b status endTime sizeBytes fileCount errorMessage
      else b) }

/-- `Database.update_job_last_run`: set `last_run` of the given job to the
current time. -/
def Database.updateJobLastRun (db : Database) (jobId : Nat) (now : String) : Database :=
  { db with jobs := db.jobs.map (fun j =>
      if j.id == jobId then { j with lastRun := some now } else j) }

/-- One store interaction, recorded in the traces of the orchestration
operations. -/
inductive DbOp where
  | readBackup (id : Nat)
  | readJob (id : Nat)
  | readClient (id : Nat)
  | insertBackup (id : Nat) (status startTime backupPath : String)
  | writeBackup (id : Nat) (status endTime : Option String)
      (sizeBytes fileCount : Option Nat) (errorMessage : Option String)
  | writeJobLastRun (id : Nat) (now : String)
deriving Repr, DecidableEq

/-- Store interactions that mutate the store. -/
def DbOp.isWrite : DbOp → Bool
  | .insertBackup _ _ _ _ => true
  | .writeBackup _ _ _ _ _ _ => true
  | .writeJobLastRun _ _ => true
  | _ => false

/-! ## Local filesystem model and artifact measurement -/

/-- A directory tree on the local filesystem: the byte sizes of the files
directly in the directory, and its subdirectories. Models what `os.walk`
visits under the artifact directory. -/
inductive FsTree where
  | node (files : List Nat) (subdirs : List FsTree)

mutual
/-- `_calculate_directory_size`: recursive byte sum over the tree. -/
def FsTree.size : FsTree → Nat
  | .node files subdirs => files.sum + FsTree.sizeList subdirs

/-- Recursive byte sum over a list of subtrees. -/
def FsTree.sizeList : List FsTree → Nat
  | [] => 0
  | t :: ts => t.size + FsTree.sizeList ts
end

mutual
/-- `_count_files`: recursive file count over the tree. -/
def FsTree.fileCount : FsTree → Nat
  | .node files subdirs => files.length + FsTree.fileCountList subdirs

/-- Recursive file count over a list of subtrees. -/
def FsTree.fileCountList : List FsTree → Nat
  | [] => 0
  | t :: ts => t.fileCount + FsTree.fileCountList ts
end

/-! ## Transfer Executor: rsync command construction -/

/-- The hard wall-clock timeout passed to every `subprocess.run` call
(`timeout=3600`, one hour). -/
def timeoutSeconds : Nat := 3600

/-- The SSH connection string built at the top of `_build_rsync_command`
(and identically in `restore_backup`): base options plus `-i <key>` when a
key path is configured (truthy). -/
def sshConnection (c : Client) : String :=
  let base := "ssh -p " ++ toString c.port ++ " -o StrictHostKeyChecking=no"
  if truthy c.keyPath then base ++ " -i " ++ c.keyPath.getD "" else base

/-- Whether the `sshpass` password mechanism is used: a password is
configured (truthy) and no key path is configured. -/
def usesSshpass (c : Client) : Bool :=
  truthy c.password && !truthy c.keyPath

/-- The rsync invocation of `_build_rsync_command` before the optional
`sshpass` prepend (the value of the local `rsync_cmd` at line 220 of the
source): archive, compress and delete-extraneous options,
`--rsync-path 'sudo rsync'` when the client has `use_sudo`, then the
remote source operand and the local destination operand. -/
def buildRsyncCore (c : Client) (sourcePath destPath : String) : List String :=
  ["rsync", "-avz", "--delete", "-e", sshConnection c]
  ++ (if c.useSudo then ["--rsync-path", "sudo rsync"] else [])
  ++ [c.username ++ "@" ++ c.host ++ ":" ++ sourcePath, destPath]

/-- `_build_rsync_command`: the backup (push) transfer command, prefixed
by `['sshpass', '-p', password]` when password authentication without a
key is configured. -/
def buildRsyncCommand (c : Client) (sourcePath destPath : String) : List String :=
  if usesSshpass c then
    ["sshpass", "-p", c.password.getD ""] ++ buildRsyncCore c sourcePath destPath
  else buildRsyncCore c sourcePath destPath

/-- The restore (pull) rsync invocation built inline in `restore_backup`,
before the optional `sshpass` prepend: like the backup invocation but
without `--delete`, and with source and destination reversed (local
artifact directory with a trailing slash to the remote restore path). -/
def restoreRsyncCore (c : Client) (backupPath restorePath : String) : List String :=
  ["rsync", "-avz", "-e", sshConnection c]
  ++ (if c.useSudo then ["--rsync-path", "sudo rsync"] else [])
  ++ [backupPath ++ "/", c.username ++ "@" ++ c.host ++ ":" ++ restorePath]

/-- The restore (pull) transfer command with the optional `sshpass`
prepend. -/
def restoreRsyncCommand (c : Client) (backupPath restorePath : String) : List String :=
  if usesSshpass c then
    ["sshpass", "-p", c.password.getD ""] ++ restoreRsyncCore c backupPath restorePath
  else restoreRsyncCore c backupPath restorePath

/-! ## External process outcomes -/

/-- Outcome of a `subprocess.run(cmd, capture_output=True, text=True,
timeout=3600)` call: normal exit with captured streams, expiry of the
3600-second timeout (`subprocess.TimeoutExpired`), or any other raised
fault with its message. -/
inductive ProcResult where
  | exited (returncode : Int) (stdout stderr : String)
  | timedOut
  | raised (msg : String)
deriving Repr, DecidableEq

/-! ## Job Runner: `run_backup_job` -/

/-- Result dictionary returned by `run_backup_job`: either
`{'success': True, 'backup_id': ..., 'size_bytes': ..., 'file_count': ...}`
or `{'success': False, 'error': ...}`. -/
inductive BackupResult where
  | ok (backupId sizeBytes fileCount : Nat)
  | err (msg : String)
deriving Repr, DecidableEq

/-- Output of one `run_backup_job` call: the returned result, the store
after the call, and the trace of store interactions made. -/
structure RunOutcome where
  result : BackupResult
  db : Database
  trace : List DbOp
deriving Repr, DecidableEq

/-- The fixed error message written and returned when the transfer process
exceeds the one-hour timeout (`run_backup_job`, `except TimeoutExpired`). -/
def backupTimeoutMessage : String := "Backup " ++ "timed out after 1 hour"

/-- The part of `run_backup_job` after the job and client rows have been
resolved: create the Run record with status `running`, build the rsync
command, run it, and finalize the Run according to the process outcome.
`artifact` is the artifact directory's contents as measured after the
transfer; `startTime`, `endTime` and `lastRunTime` are the successive
`datetime.now()` readings (the `strftime` rendering of the start instant
used in the artifact directory name is identified with its `isoformat`
rendering, which no claim distinguishes). -/
def runBackupJobResolved (db : Database) (backupDir : String) (jobId : Nat) (job : Job)
    (client : Client) (startTime endTime lastRunTime : String)
    (proc : List String → ProcResult) (artifact : FsTree) : RunOutcome :=
  let backupName := job.name ++ "_" ++ startTime
  let backupPath := backupDir ++ "/" ++ toString job.clientId ++ "/" ++ backupName
  let bid := db.nextBackupId
  let db1 := db.addBackup jobId "running" startTime backupPath
  let baseTrace := [DbOp.readJob jobId, DbOp.readClient job.clientId,
                    DbOp.insertBackup bid "running" startTime backupPath]
  let rsyncCmd := buildRsyncCommand client job.sourcePath backupPath
  match proc rsyncCmd with
  | .exited rc stdout stderr =>
    let sizeBytes := artifact.size
    let fileCount := artifact.fileCount
    if rc == 0 then
      let db2 := db1.updateBackup bid (some "completed") (some endTime)
        (some sizeBytes) (some fileCount) none
      let db3 := db2.updateJobLastRun jobId lastRunTime
      { result := .ok bid sizeBytes fileCount, db := db3,
        trace := baseTrace ++ [DbOp.writeBackup bid (some "completed") (some endTime)
                                 (some sizeBytes) (some fileCount) none,
                               DbOp.writeJobLastRun jobId lastRunTime] }
    else
      let errorMsg := pyOrStr stderr stdout
      let db2 := db1.updateBackup bid (some "failed") (some endTime) none none (some errorMsg)
      { result := .err errorMsg, db := db2,
        trace := baseTrace ++ [DbOp.writeBackup bid (some "failed") (some endTime)
                                 none none (some errorMsg)] }
  | .timedOut =>
    let db2 := db1.updateBackup bid (some "failed") (some endTime)
      none none (some backupTimeoutMessage)
    { result := .err backupTimeoutMessage, db := db2,
      trace := baseTrace ++ [DbOp.writeBackup bid (some "failed") (some endTime)
                               none none (some backupTimeoutMessage)] }
  | .raised msg =>
    let db2 := db1.updateBackup bid (some "failed") (some endTime) none none (some msg)
    { result := .err msg, db := db2,
      trace := baseTrace ++ [DbOp.writeBackup bid (some "failed") (some endTime)
                               none none (some msg)] }

/-- `run_backup_job(job_id)`: resolve the job and its client, then run the
resolved body. Missing job or client short-circuits with a failure result
and no Run record. -/
def runBackupJob (db : Database) (backupDir : String) (jobId : Nat)
    (startTime endTime lastRunTime : String)
    (proc : List String → ProcResult) (artifact : FsTree) : RunOutcome :=
  match db.getJob jobId with
  | none => { result := .err "Job not found", db := db, trace := [DbOp.readJob jobId] }
  | some job =>
    match db.getClient job.clientId with
    | none => { result := .err "Client not found", db := db,
                trace := [DbOp.readJob jobId, DbOp.readClient job.clientId] }
    | some client =>
      runBackupJobResolved db backupDir jobId job client startTime endTime lastRunTime
        proc artifact

/-! ## Job Runner: `restore_backup` -/

/-- Result dictionary returned by `restore_backup`. -/
inductive RestoreResult where
  | ok (message : String)
  | err (msg : String)
deriving Repr, DecidableEq

/-- Output of one `restore_backup` call: the returned result, the transfer
command that was constructed and run (`none` when the call was rejected
before any command was built), the store after the call, and the trace of
store interactions. -/
structure RestoreOutcome where
  result : RestoreResult
  cmd : Option (List String)
  db : Database
  trace : List DbOp
deriving Repr, DecidableEq

/-- The characters rejected by the restore-path validation in
`restore_backup` (the backquote character is written numerically). -/
def dangerousChars : List Char :=
  [';', '&', '|', Char.ofNat 96, '$', '\n', '\r']

/-- Whether the restore path contains a dangerous character
(`any(char in restore_path for char in dangerous_chars)`). -/
def containsDangerous (path : String) : Bool :=
  dangerousChars.any (fun c => path.data.contains c)

/-- Message of the `subprocess.TimeoutExpired` exception as caught by the
generic handler of `restore_backup` (its precise text is irrelevant to
every claim; only the failure outcome matters). -/
def timeoutExpiredMessage : String :=
  "Command timed out after " ++ toString timeoutSeconds ++ " seconds"

/-- The part of `restore_backup` after the run, job and client rows have
been resolved and the destination path fixed: validate the destination,
and only when it passes both checks build and run the pull rsync command. -/
def restoreResolved (db : Database) (backup : BackupRec) (client : Client)
    (dest : String) (trace : List DbOp) (proc : List String → ProcResult) : RestoreOutcome :=
  if !startsWithSlash dest then
    { result := .err "Restore path must be absolute", cmd := none, db := db, trace := trace }
  else if containsDangerous dest then
    { result := .err "Invalid restore path", cmd := none, db := db, trace := trace }
  else
    let cmd := restoreRsyncCommand client (backup.backupPath.getD "") dest
    match proc cmd with
    | .exited rc stdout stderr =>
      if rc == 0 then
        { result := .ok "Restore completed successfully", cmd := some cmd, db := db, trace := trace }
      else
        { result := .err (pyOrStr stderr stdout), cmd := some cmd, db := db, trace := trace }
    | .timedOut =>
      { result := .err timeoutExpiredMessage, cmd := some cmd, db := db, trace := trace }
    | .raised msg =>
      { result := .err msg, cmd := some cmd, db := db, trace := trace }

/-- The destination of a restore: the override path when truthy
(`if not restore_path: restore_path = backup['source_path']`), else the
job's source path (the joined `source_path` column of `get_backup`). -/
def restoreDest (restorePath : Option String) (job : Job) : String :=
  if truthy restorePath then restorePath.getD "" else job.sourcePath

/-- `restore_backup(backup_id, restore_path=None)`: resolve the Run, its
Job and its Client; default the destination to the job's source path when
the override is not truthy; validate; then transfer in the pull
direction. No Run record is created or updated. -/
def restoreBackup (db : Database) (backupId : Nat) (restorePath : Option String)
    (proc : List String → ProcResult) : RestoreOutcome :=
  match db.getBackup backupId with
  | none => { result := .err "Backup not found", cmd := none, db := db,
              trace := [DbOp.readBackup backupId] }
  | some backup =>
    match db.getJob backup.jobId with
    | none => { result := .err "Job not found", cmd := none, db := db,
                trace := [DbOp.readBackup backupId, DbOp.readJob backup.jobId] }
    | some job =>
      match db.getClient job.clientId with
      | none => { result := .err "Client not found", cmd := none, db := db,
                  trace := [DbOp.readBackup backupId, DbOp.readJob backup.jobId,
                            DbOp.readClient job.clientId] }
      | some client =>
        restoreResolved db backup client (restoreDest restorePath job)
          [DbOp.readBackup backupId, DbOp.readJob backup.jobId,
           DbOp.readClient job.clientId] proc

/-! ## Job Scheduler: `schedule_job` -/

/-- A cron trigger as constructed by `schedule_job` from the five fields
of the schedule expression. -/
structure CronTrigger where
  minute : String
  hour : String
  day : String
  month : String
  dayOfWeek : String
deriving Repr, DecidableEq

/-- The scheduler's trigger table, keyed by job id (the source uses the
string key `job_{job_id}`, in bijection with the id). -/
def TriggerTable := List (Nat × CronTrigger)

/-- `scheduler.add_job(..., id=f"job_{job_id}", replace_existing=True)`:
register a trigger for the job id, replacing any existing one. -/
def replaceTrigger (sched : List (Nat × CronTrigger)) (jobId : Nat) (t : CronTrigger) :
    List (Nat × CronTrigger) :=
  (sched.filter (fun p => p.1 != jobId)) ++ [(jobId, t)]

/-- `schedule_job(job_id)`: load the job; return the table unchanged
(logging only) when the job is missing, its schedule is not truthy, the
schedule does not split into exactly 5 fields, or the external
`CronTrigger` constructor rejects the fields (`cronOk`, a parameter
standing for the apscheduler library's field validation, whose raise is
caught by the surrounding `except`). Otherwise register the trigger,
replacing any existing trigger for this id. Note: the job's `enabled`
flag is never consulted here. -/
def scheduleJob (db : Database) (sched : List (Nat × CronTrigger)) (jobId : Nat)
    (cronOk : List String → Bool) : List (Nat × CronTrigger) :=
  match db.getJob jobId with
  | none => sched
  | some job =>
    if !truthy job.schedule then sched
    else
      let parts := pySplit (job.schedule.getD "")
      if parts.length != 5 then sched
      else if cronOk parts then
        replaceTrigger sched jobId
          ⟨parts.getD 0 "", parts.getD 1 "", parts.getD 2 "", parts.getD 3 "", parts.getD 4 ""⟩
      else sched

/-! ## Statistics Aggregator: `get_statistics` -/

/-- The statistics dictionary returned by `get_statistics`. -/
structure Stats where
  totalClients : Nat
  totalJobs : Nat
  enabledJobs : Nat
  totalBackups : Nat
  successfulBackups : Nat
  failedBackups : Nat
  totalSizeBytes : Nat
  totalSizeGb : ℚ
deriving Repr, DecidableEq

/-- Python `round(x, 2)` on the exact rational value: round to the nearest
hundredth (ties, which no claim exercises, follow Mathlib's `round`). -/
def round2 (q : ℚ) : ℚ := (round (q * 100) : ℤ) / 100

/-- `get_statistics()`: counts over all clients and jobs and the most
recent at-most-1000 backups; the completed-run size sum treats a NULL
`size_bytes` as 0; the gibibyte figure is the sum divided by `1024^3`
rounded to 2 decimal places. -/
def getStatistics (db : Database) : Stats :=
  let backups := db.getAllBackups 1000
  let totalSize := ((backups.filter (fun b => b.status == "completed")).map
    (fun b => b.sizeBytes.getD 0)).sum
  { totalClients := db.clients.length
    totalJobs := db.jobs.length
    enabledJobs := (db.jobs.filter (fun j => j.enabled)).length
    totalBackups := backups.length
    successfulBackups := (backups.filter (fun b => b.status == "completed")).length
    failedBackups := (backups.filter (fun b => b.status == "failed")).length
    totalSizeBytes := totalSize
    totalSizeGb := round2 ((totalSize : ℚ) / (1024 ^ 3 : ℚ)) }

/-! ## Store well-formedness and sample data -/

/-- The SQLite `AUTOINCREMENT` invariant for the backups table: no stored
row already carries the id the next INSERT will be assigned. -/
def Database.freshIds (db : Database) : Bool :=
  db.backups.all (fun b => b.id != db.nextBackupId)

/-- A sample key-authenticated client for concrete instantiations. -/
def sampleClient : Client :=
  { id := 1, name := "pi", host := "10.0.0.5", port := 22, username := "pi",
    password := none, keyPath := some "/home/pi/.ssh/backup_key", useSudo := false }

/-- A sample enabled job with a daily-at-2am schedule. -/
def sampleJob : Job :=
  { id := 1, clientId := 1, name := "home", sourcePath := "/home/pi",
    schedule := some "0 2 * * *", enabled := true, lastRun := none }

/-- A sample completed Run record. -/
def sampleRun : BackupRec :=
  { id := 1, jobId := 1, status := "completed", startTime := "2026-01-01T02:00:00",
    endTime := some "2026-01-01T02:05:00", sizeBytes := some 100, fileCount := some 3,
    errorMessage := none, backupPath := some "/data/backups/1/home_20260101_020000" }

/-- A sample store holding the client, the job and one completed Run. -/
def sampleDb : Database :=
  { clients := [sampleClient], jobs := [sampleJob], backups := [sampleRun],
    nextBackupId := 2 }

/-- `sampleJob` with the enabled flag cleared. -/
def disabledJob : Job := { sampleJob with enabled := false }

/-- `sampleDb` with its only job disabled. -/
def disabledDb : Database := { sampleDb with jobs := [disabledJob] }

/-- `sampleClient` with remote privilege escalation enabled. -/
def sudoClient : Client := { sampleClient with useSudo := true }

/-- `sampleClient` with both a key path and a password configured. -/
def keyPassClient : Client := { sampleClient with password := some "hunter2" }

/-- A password-only client (no key path). -/
def passwordClient : Client := { sampleClient with password := some "hunter2", keyPath := none }

/-- Recognizer for Run-record INSERT operations in a trace. -/
def DbOp.isInsertBackup : DbOp → Bool
  | .insertBackup _ _ _ _ => true
  | _ => false

/-- Recognizer for Run-record INSERT operations that create the record in
`running` status. -/
def DbOp.isInsertRunning : DbOp → Bool
  | .insertBackup _ s _ _ => s == "running"
  | _ => false

/-- Recognizer for Run-record UPDATE operations in a trace. -/
def DbOp.isWriteBackup : DbOp → Bool
  | .writeBackup _ _ _ _ _ _ => true
  | _ => false

/-- Recognizer for Run-record UPDATE operations that finalize the record:
they write status `completed` or `failed` together with a truthy end
time. -/
def DbOp.isFinalizingWrite : DbOp → Bool
  | .writeBackup _ s et _ _ _ =>
    (s == some "completed" || s == some "failed") && truthy et
  | _ => false

/-- The spec's statistics scenario: two completed Runs with sizes 100 and
300 and one failed Run. -/
def statsDb : Database :=
  { clients := []
    jobs := []
    backups :=
      [ { id := 3, jobId := 1, status := "failed", startTime := "t3", endTime := some "t3e",
          sizeBytes := none, fileCount := none,
          errorMessage := some "rsync error", backupPath := some "/b3" },
        { id := 2, jobId := 1, status := "completed", startTime := "t2", endTime := some "t2e",
          sizeBytes := some 300, fileCount := some 7,
          errorMessage := none, backupPath := some "/b2" },
        { id := 1, jobId := 1, status := "completed", startTime := "t1", endTime := some "t1e",
          sizeBytes := some 100, fileCount := some 3,
          errorMessage := none, backupPath := some "/b1" } ]
    nextBackupId := 4 }

/-! ## Helper lemmas -/

/-- Two strings differ when some character occurs in one but not the
other. -/
theorem ne_of_char_mem {s t : String} {c : Char} (hs : c ∈ s.data) (ht : c ∉ t.data) :
    s ≠ t := by
  intro h
  subst h
  exact ht hs

/-- Every SSH connection string contains a space character. -/
theorem space_mem_sshConnection (c : Client) : ' ' ∈ (sshConnection c).data := by
  unfold sshConnection
  by_cases h : truthy c.keyPath <;>
    simp [h, String.data_append, List.mem_append]

/-- The local artifact operand of the restore command ends in a slash,
hence contains one. -/
theorem slash_mem_artifact_operand (bp : String) : '/' ∈ (bp ++ "/").data := by
  simp [String.data_append, List.mem_append]

/-- The remote operand of either command contains an `@` character. -/
theorem at_mem_remote_operand (u h r : String) :
    '@' ∈ (u ++ "@" ++ h ++ ":" ++ r).data := by
  simp [String.data_append, List.mem_append]

/-- Mapping a guarded rewrite over a list none of whose elements satisfies
the guard leaves the list unchanged. -/
theorem map_guard_id {α : Type} (l : List α) (p : α → Bool) (f : α → α)
    (h : ∀ a ∈ l, p a = false) :
    l.map (fun a => if p a then f a else a) = l := by
  induction l with
  | nil => rfl
  | cons x xs ih =>
    have hx := h x (by simp)
    simp only [List.map_cons, hx, Bool.false_eq_true, if_false]
    rw [ih (fun a ha => h a (by simp [ha]))]

/-- Updating the row just inserted by `addBackup` rewrites exactly that
row and leaves the pre-existing rows untouched (by id freshness). -/
theorem updateBackup_fresh (db : Database) (hf : db.freshIds = true)
    (jobId : Nat) (startTime backupPath : String)
    (st et : Option String) (sz fc : Option Nat) (em : Option String) :
    ((db.addBackup jobId "running" startTime backupPath).updateBackup db.nextBackupId
        st et sz fc em).backups =
      applyBackupUpdate
        { id := db.nextBackupId, jobId := jobId, status := "running",
          startTime := startTime, endTime := none, sizeBytes := none, fileCount := none,
          errorMessage := none, backupPath := some backupPath } st et sz fc em
        :: db.backups := by
  unfold Database.addBackup Database.updateBackup
  simp only [List.map_cons, beq_self_eq_true, if_true]
  congr 1
  apply map_guard_id
  intro b hb
  simp only [Database.freshIds, List.all_eq_true] at hf
  have := hf b hb
  simpa using this

/-! ## Claim theorems -/

/-- C8: for every host and paths, the backup transfer command carries the
archive+compress option `-avz` and the mirror option `--delete`, while
the restore rsync invocation carries `-avz` but never `--delete` (the
full restore argv adds only the `sshpass` password mechanism in front of
that invocation); and whenever `use_sudo` is set, both directions route
the remote-side rsync through sudo via `--rsync-path 'sudo rsync'`. -/
theorem backup_mirrors_restore_nondeleting (c : Client) (s d bp rp : String) :
    "-avz" ∈ buildRsyncCore c s d ∧
    "--delete" ∈ buildRsyncCore c s d ∧
    "--delete" ∈ buildRsyncCommand c s d ∧
    "-avz" ∈ restoreRsyncCore c bp rp ∧
    "--delete" ∉ restoreRsyncCore c bp rp ∧
    restoreRsyncCommand c bp rp =
      (if usesSshpass c then ["sshpass", "-p", c.password.getD ""] else [])
        ++ restoreRsyncCore c bp rp ∧
    (c.useSudo = true →
      (∃ pre post, buildRsyncCommand c s d = pre ++ ["--rsync-path", "sudo rsync"] ++ post) ∧
      (∃ pre post, restoreRsyncCommand c bp rp = pre ++ ["--rsync-path", "sudo rsync"] ++ post)) := by
  have hssh : sshConnection c ≠ "--delete" :=
    ne_of_char_mem (space_mem_sshConnection c) (by decide)
  have hart : bp ++ "/" ≠ "--delete" :=
    ne_of_char_mem (slash_mem_artifact_operand bp) (by decide)
  have hrem : ∀ r : String, c.username ++ "@" ++ c.host ++ ":" ++ r ≠ "--delete" :=
    fun r => ne_of_char_mem (at_mem_remote_operand c.username c.host r) (by decide)
  refine ⟨?_, ?_, ?_, ?_, ?_, ?_, ?_⟩
  · by_cases h : c.useSudo <;> simp [buildRsyncCore, h]
  · by_cases h : c.useSudo <;> simp [buildRsyncCore, h]
  · by_cases h : c.useSudo <;> by_cases hp : usesSshpass c <;>
      simp [buildRsyncCommand, buildRsyncCore, h, hp]
  · by_cases h : c.useSudo <;> simp [restoreRsyncCore, h]
  · by_cases h : c.useSudo <;>
      simp [restoreRsyncCore, h, hssh, hssh.symm, hart, hart.symm,
            (hrem rp), (hrem rp).symm]
  · by_cases hp : usesSshpass c <;> simp [restoreRsyncCommand, hp]
  · intro h
    constructor
    · refine ⟨(if usesSshpass c then ["sshpass", "-p", c.password.getD ""] else [])
        ++ ["rsync", "-avz", "--delete", "-e", sshConnection c],
        [c.username ++ "@" ++ c.host ++ ":" ++ s, d], ?_⟩
      by_cases hp : usesSshpass c <;>
        simp [buildRsyncCommand, buildRsyncCore, h, hp]
    · refine ⟨(if usesSshpass c then ["sshpass", "-p", c.password.getD ""] else [])
        ++ ["rsync", "-avz", "-e", sshConnection c],
        [bp ++ "/", c.username ++ "@" ++ c.host ++ ":" ++ rp], ?_⟩
      by_cases hp : usesSshpass c <;>
        simp [restoreRsyncCommand, restoreRsyncCore, h, hp]

/-- Witness for C8: at a concrete sudo-enabled client, the backup command
carries `--delete`, the restore invocation does not, and the sudo wrap is
present. -/
theorem backup_mirrors_restore_nondeleting_witness :
    "--delete" ∈ buildRsyncCore sudoClient "/home/pi" "/data/backups/1/home_x" ∧
    "--delete" ∉ restoreRsyncCore sudoClient "/data/backups/1/home_x" "/home/pi" ∧
    (∃ pre post, buildRsyncCommand sudoClient "/home/pi" "/data/backups/1/home_x" =
      pre ++ ["--rsync-path", "sudo rsync"] ++ post) := by
  obtain ⟨-, h2, -, -, h5, -, h7⟩ :=
    backup_mirrors_restore_nondeleting sudoClient "/home/pi" "/data/backups/1/home_x"
      "/data/backups/1/home_x" "/home/pi"
  exact ⟨h2, h5, (h7 rfl).1⟩

/-- C10: the `sshpass` password mechanism is engaged exactly when a
password is configured and no key path is; in particular a client with
both a key path and a password uses key authentication — its SSH command
string carries `-i <keyPath>` and neither transfer command starts with
the `['sshpass', '-p', ...]` prefix. -/
theorem key_auth_precedence (c : Client) (s d bp rp : String) :
    (usesSshpass c = true ↔ (truthy c.password = true ∧ truthy c.keyPath = false)) ∧
    ((buildRsyncCommand c s d).take 2 = ["sshpass", "-p"] ↔ usesSshpass c = true) ∧
    ((restoreRsyncCommand c bp rp).take 2 = ["sshpass", "-p"] ↔ usesSshpass c = true) ∧
    (truthy c.keyPath = true → truthy c.password = true →
      sshConnection c =
        "ssh -p " ++ toString c.port ++ " -o StrictHostKeyChecking=no"
          ++ " -i " ++ c.keyPath.getD "" ∧
      (buildRsyncCommand c s d).take 2 ≠ ["sshpass", "-p"] ∧
      (restoreRsyncCommand c bp rp).take 2 ≠ ["sshpass", "-p"]) := by
  have htake : ∀ u : Bool, ∀ core : List String, core.take 2 = ["rsync", "-avz"] →
      ((if usesSshpass c then ["sshpass", "-p", c.password.getD ""] ++ core else core).take 2
        = ["sshpass", "-p"] ↔ usesSshpass c = true) := by
    intro u core hcore
    by_cases hp : usesSshpass c <;> simp [hp, hcore]
  have hbuild : (buildRsyncCore c s d).take 2 = ["rsync", "-avz"] := by
    simp [buildRsyncCore]
  have hrest : (restoreRsyncCore c bp rp).take 2 = ["rsync", "-avz"] := by
    simp [restoreRsyncCore]
  have hb := htake c.useSudo (buildRsyncCore c s d) hbuild
  have hr := htake c.useSudo (restoreRsyncCore c bp rp) hrest
  refine ⟨?_, ?_, ?_, ?_⟩
  · simp [usesSshpass, Bool.and_eq_true, Bool.not_eq_true']
  · simpa [buildRsyncCommand] using hb
  · simpa [restoreRsyncCommand] using hr
  · intro hk _
    have hp : usesSshpass c = false := by
      simp [usesSshpass, hk]
    refine ⟨by simp [sshConnection, hk], ?_, ?_⟩
    · simp [buildRsyncCommand, hp, hbuild]
    · simp [restoreRsyncCommand, hp, hrest]

/-- Witness for C10: a concrete client with both a key path and a
password uses key authentication and no `sshpass` prefix. -/
theorem key_auth_precedence_witness :
    sshConnection keyPassClient =
      "ssh -p " ++ toString keyPassClient.port ++ " -o StrictHostKeyChecking=no"
        ++ " -i " ++ keyPassClient.keyPath.getD "" ∧
    (buildRsyncCommand keyPassClient "/home/pi" "/data").take 2 ≠ ["sshpass", "-p"] ∧
    (restoreRsyncCommand keyPassClient "/data" "/home/pi").take 2 ≠ ["sshpass", "-p"] := by
  exact (key_auth_precedence keyPassClient "/home/pi" "/data" "/data" "/home/pi").2.2.2
    (by decide) (by decide)

/-- The validated tail of a restore leaves the store untouched and adds
nothing to the interaction trace. -/
theorem restoreResolved_frame (db : Database) (backup : BackupRec) (client : Client)
    (dest : String) (trace : List DbOp) (proc : List String → ProcResult) :
    (restoreResolved db backup client dest trace proc).db = db ∧
    (restoreResolved db backup client dest trace proc).trace = trace := by
  unfold restoreResolved
  by_cases h1 : startsWithSlash dest
  · by_cases h2 : containsDangerous dest
    · simp [h1, h2]
    · simp only [h1, h2, Bool.not_true, Bool.false_eq_true, if_false]
      cases hp : proc (restoreRsyncCommand client (backup.backupPath.getD "") dest) with
      | exited rc stdout stderr => by_cases hrc : rc == 0 <;> simp [hp, hrc]
      | timedOut => simp [hp]
      | raised msg => simp [hp]
  · simp [h1]

/-- C9: a restore is a pure read of the store — the store after any
`restore_backup` call equals the store before it (so no Run record is
created and no Run, Job or Client row changes, `last_run` included), and
every store interaction in its trace is a read. -/
theorem restore_writes_nothing (db : Database) (backupId : Nat)
    (restorePath : Option String) (proc : List String → ProcResult) :
    (restoreBackup db backupId restorePath proc).db = db ∧
    (restoreBackup db backupId restorePath proc).trace.all (fun op => !op.isWrite) = true := by
  cases hb : db.getBackup backupId with
  | none => simp [restoreBackup, hb, DbOp.isWrite]
  | some backup =>
    cases hj : db.getJob backup.jobId with
    | none => simp [restoreBackup, hb, hj, DbOp.isWrite]
    | some job =>
      cases hc : db.getClient job.clientId with
      | none => simp [restoreBackup, hb, hj, hc, DbOp.isWrite]
      | some client =>
        have h := restoreResolved_frame db backup client (restoreDest restorePath job)
          [DbOp.readBackup backupId, DbOp.readJob backup.jobId, DbOp.readClient job.clientId]
          proc
        simp only [restoreBackup, hb, hj, hc]
        refine ⟨h.1, ?_⟩
        rw [h.2]
        rfl

/-- C1: once the Run, Job and Client resolve, `restore_backup` validates
the destination (override when truthy, else the job's source path)
before any transfer command exists: a destination without a leading `/`
or containing a dangerous character yields a failure with no command
built, and a command is built only for destinations passing both
checks. -/
theorem restore_validates_destination (db : Database) (backupId : Nat)
    (restorePath : Option String) (proc : List String → ProcResult)
    (backup : BackupRec) (job : Job) (client : Client)
    (hb : db.getBackup backupId = some backup)
    (hj : db.getJob backup.jobId = some job)
    (hc : db.getClient job.clientId = some client) :
    (startsWithSlash (restoreDest restorePath job) = false →
      (restoreBackup db backupId restorePath proc).result = .err "Restore path must be absolute" ∧
      (restoreBackup db backupId restorePath proc).cmd = none) ∧
    (startsWithSlash (restoreDest restorePath job) = true →
      containsDangerous (restoreDest restorePath job) = true →
      (restoreBackup db backupId restorePath proc).result = .err "Invalid restore path" ∧
      (restoreBackup db backupId restorePath proc).cmd = none) ∧
    (∀ cmdRun, (restoreBackup db backupId restorePath proc).cmd = some cmdRun →
      startsWithSlash (restoreDest restorePath job) = true ∧
      containsDangerous (restoreDest restorePath job) = false ∧
      cmdRun = restoreRsyncCommand client (backup.backupPath.getD "")
        (restoreDest restorePath job)) := by
  have hre : restoreBackup db backupId restorePath proc =
      restoreResolved db backup client (restoreDest restorePath job)
        [DbOp.readBackup backupId, DbOp.readJob backup.jobId, DbOp.readClient job.clientId]
        proc := by
    simp only [restoreBackup, hb, hj, hc]
  rw [hre]
  by_cases h1 : startsWithSlash (restoreDest restorePath job)
  · by_cases h2 : containsDangerous (restoreDest restorePath job)
    · refine ⟨fun hf => by simp [hf] at h1, fun _ _ => ?_, fun cmdRun hcmd => ?_⟩
      · simp [restoreResolved, h1, h2]
      · simp [restoreResolved, h1, h2] at hcmd
    · refine ⟨fun hf => by simp [hf] at h1, fun _ hd => by simp [hd] at h2, fun cmdRun hcmd => ?_⟩
      refine ⟨h1, by simpa using h2, ?_⟩
      simp only [restoreResolved, h1, Bool.not_true, Bool.false_eq_true, if_false] at hcmd
      rw [if_neg (by simp [h2])] at hcmd
      cases hp : proc (restoreRsyncCommand client (backup.backupPath.getD "")
          (restoreDest restorePath job)) with
      | exited rc stdout stderr =>
        rw [hp] at hcmd
        by_cases hrc : rc == 0
        · simp [hrc] at hcmd
          exact hcmd.symm
        · simp [hrc] at hcmd
          exact hcmd.symm
      | timedOut =>
        rw [hp] at hcmd
        simpa using hcmd.symm
      | raised msg =>
        rw [hp] at hcmd
        simpa using hcmd.symm
  · have h1' : startsWithSlash (restoreDest restorePath job) = false := by
      simpa using h1
    refine ⟨fun _ => ?_, fun ht => by simp [ht] at h1', fun cmdRun hcmd => ?_⟩
    · simp [restoreResolved, h1']
    · simp [restoreResolved, h1'] at hcmd

/-- Witness for C1: on a concrete store, the spec's two example
destinations — `etc/passwd` (no leading slash) and `/tmp/x; rm -rf /`
(dangerous character) — are rejected with no command built. -/
theorem restore_validates_destination_witness :
    ((restoreBackup sampleDb 1 (some "etc/passwd") (fun _ => .exited 0 "" "")).result =
        .err "Restore path must be absolute" ∧
      (restoreBackup sampleDb 1 (some "etc/passwd") (fun _ => .exited 0 "" "")).cmd = none) ∧
    ((restoreBackup sampleDb 1 (some "/tmp/x; rm -rf /") (fun _ => .exited 0 "" "")).result =
        .err "Invalid restore path" ∧
      (restoreBackup sampleDb 1 (some "/tmp/x; rm -rf /") (fun _ => .exited 0 "" "")).cmd = none) := by
  constructor
  · exact (restore_validates_destination sampleDb 1 (some "etc/passwd")
      (fun _ => .exited 0 "" "") sampleRun sampleJob sampleClient rfl rfl rfl).1 (by decide)
  · exact ((restore_validates_destination sampleDb 1 (some "/tmp/x; rm -rf /")
      (fun _ => .exited 0 "" "") sampleRun sampleJob sampleClient rfl rfl rfl).2.1
      (by decide) (by decide))

/-- C2: when the job and its client resolve and the transfer process
exits 0, `run_backup_job` pushes exactly one new Run onto the store,
finalized as `completed` with the (non-empty, hence stored) end time, the
recursive byte sum of the artifact directory as size and its recursive
file count as count (both `Nat`, hence ≥ 0); it stamps the job's
`last_run` and returns success carrying that same size and count. -/
theorem run_success_completes (db : Database) (backupDir : String) (jobId : Nat)
    (startTime endTime lastRunTime stdout stderr : String) (artifact : FsTree)
    (job : Job) (client : Client)
    (hj : db.getJob jobId = some job)
    (hc : db.getClient job.clientId = some client)
    (hf : db.freshIds = true)
    (he : strIsEmpty endTime = false) :
    ∃ b : BackupRec,
      (runBackupJob db backupDir jobId startTime endTime lastRunTime
          (fun _ => .exited 0 stdout stderr) artifact).db.backups = b :: db.backups ∧
      b.id = db.nextBackupId ∧
      b.jobId = jobId ∧
      b.status = "completed" ∧
      b.endTime = some endTime ∧
      b.sizeBytes = some artifact.size ∧
      b.fileCount = some artifact.fileCount ∧
      (runBackupJob db backupDir jobId startTime endTime lastRunTime
          (fun _ => .exited 0 stdout stderr) artifact).db.jobs =
        db.jobs.map (fun j => if j.id == jobId then { j with lastRun := some lastRunTime }
          else j) ∧
      (runBackupJob db backupDir jobId startTime endTime lastRunTime
          (fun _ => .exited 0 stdout stderr) artifact).result =
        .ok db.nextBackupId artifact.size artifact.fileCount := by
  have hupd := updateBackup_fresh db hf jobId startTime
    (backupDir ++ "/" ++ toString job.clientId ++ "/" ++ (job.name ++ "_" ++ startTime))
    (some "completed") (some endTime) (some artifact.size) (some artifact.fileCount) none
  have happly : applyBackupUpdate
      { id := db.nextBackupId, jobId := jobId, status := "running", startTime := startTime,
        endTime := none, sizeBytes := none, fileCount := none, errorMessage := none,
        backupPath := some (backupDir ++ "/" ++ toString job.clientId ++ "/"
          ++ (job.name ++ "_" ++ startTime)) }
      (some "completed") (some endTime) (some artifact.size) (some artifact.fileCount) none =
      { id := db.nextBackupId, jobId := jobId, status := "completed", startTime := startTime,
        endTime := some endTime, sizeBytes := some artifact.size,
        fileCount := some artifact.fileCount, errorMessage := none,
        backupPath := some (backupDir ++ "/" ++ toString job.clientId ++ "/"
          ++ (job.name ++ "_" ++ startTime)) } := by
    have hcomp : strIsEmpty "completed" = false := rfl
    simp [applyBackupUpdate, he, hcomp]
  have h00 : ((0 : Int) == 0) = true := rfl
  simp only [runBackupJob, hj, hc, runBackupJobResolved]
  rw [if_pos h00]
  refine ⟨{ id := db.nextBackupId, jobId := jobId, status := "completed",
            startTime := startTime, endTime := some endTime,
            sizeBytes := some artifact.size, fileCount := some artifact.fileCount,
            errorMessage := none,
            backupPath := some (backupDir ++ "/" ++ toString job.clientId ++ "/"
              ++ (job.name ++ "_" ++ startTime)) },
          ?_, rfl, rfl, rfl, rfl, rfl, rfl, rfl, rfl⟩
  show ((db.addBackup jobId "running" startTime
      (backupDir ++ "/" ++ toString job.clientId ++ "/" ++ (job.name ++ "_" ++ startTime))).updateBackup
      db.nextBackupId (some "completed") (some endTime) (some artifact.size)
      (some artifact.fileCount) none).backups = _
  rw [hupd, happly]

/-- Witness for C2 at a concrete store and a 2-file artifact. -/
theorem run_success_completes_witness :
    sampleDb.freshIds = true ∧
    ∃ b : BackupRec,
      (runBackupJob sampleDb "/data/backups" 1 "t0" "t1" "t2"
          (fun _ => .exited 0 "" "") (FsTree.node [50, 50] [])).db.backups =
        b :: sampleDb.backups ∧
      b.id = sampleDb.nextBackupId ∧
      b.jobId = 1 ∧
      b.status = "completed" ∧
      b.endTime = some "t1" ∧
      b.sizeBytes = some (FsTree.node [50, 50] []).size ∧
      b.fileCount = some (FsTree.node [50, 50] []).fileCount ∧
      (runBackupJob sampleDb "/data/backups" 1 "t0" "t1" "t2"
          (fun _ => .exited 0 "" "") (FsTree.node [50, 50] [])).db.jobs =
        sampleDb.jobs.map (fun j => if j.id == 1 then { j with lastRun := some "t2" }
          else j) ∧
      (runBackupJob sampleDb "/data/backups" 1 "t0" "t1" "t2"
          (fun _ => .exited 0 "" "") (FsTree.node [50, 50] [])).result =
        .ok sampleDb.nextBackupId (FsTree.node [50, 50] []).size
          (FsTree.node [50, 50] []).fileCount :=
  ⟨by decide,
    run_success_completes sampleDb "/data/backups" 1 "t0" "t1" "t2" "" ""
      (FsTree.node [50, 50] []) sampleJob sampleClient rfl rfl (by decide) (by decide)⟩

/-- C3 (amended): when the transfer process exits non-zero,
`run_backup_job` finalizes exactly one new Run as `failed` with an end
time, leaves `last_run` (and every job row) unchanged, and returns
failure carrying `stderr or stdout`; the captured text is stored in the
Run only when it is non-empty — when both streams are empty the stored
error text stays NULL and the returned error is the empty string. -/
theorem run_failure_records_error (db : Database) (backupDir : String) (jobId : Nat)
    (startTime endTime lastRunTime stdout stderr : String) (rc : Int) (artifact : FsTree)
    (job : Job) (client : Client)
    (hj : db.getJob jobId = some job)
    (hc : db.getClient job.clientId = some client)
    (hf : db.freshIds = true)
    (he : strIsEmpty endTime = false)
    (hrc : rc ≠ 0) :
    ∃ b : BackupRec,
      (runBackupJob db backupDir jobId startTime endTime lastRunTime
          (fun _ => .exited rc stdout stderr) artifact).db.backups = b :: db.backups ∧
      b.id = db.nextBackupId ∧
      b.status = "failed" ∧
      b.endTime = some endTime ∧
      b.errorMessage = (if strIsEmpty (pyOrStr stderr stdout) then none
        else some (pyOrStr stderr stdout)) ∧
      (runBackupJob db backupDir jobId startTime endTime lastRunTime
          (fun _ => .exited rc stdout stderr) artifact).db.jobs = db.jobs ∧
      (runBackupJob db backupDir jobId startTime endTime lastRunTime
          (fun _ => .exited rc stdout stderr) artifact).result =
        .err (pyOrStr stderr stdout) := by
  have hupd := updateBackup_fresh db hf jobId startTime
    (backupDir ++ "/" ++ toString job.clientId ++ "/" ++ (job.name ++ "_" ++ startTime))
    (some "failed") (some endTime) none none (some (pyOrStr stderr stdout))
  have happly : applyBackupUpdate
      { id := db.nextBackupId, jobId := jobId, status := "running", startTime := startTime,
        endTime := none, sizeBytes := none, fileCount := none, errorMessage := none,
        backupPath := some (backupDir ++ "/" ++ toString job.clientId ++ "/"
          ++ (job.name ++ "_" ++ startTime)) }
      (some "failed") (some endTime) none none (some (pyOrStr stderr stdout)) =
      { id := db.nextBackupId, jobId := jobId, status := "failed", startTime := startTime,
        endTime := some endTime, sizeBytes := none, fileCount := none,
        errorMessage := (if strIsEmpty (pyOrStr stderr stdout) then none
          else some (pyOrStr stderr stdout)),
        backupPath := some (backupDir ++ "/" ++ toString job.clientId ++ "/"
          ++ (job.name ++ "_" ++ startTime)) } := by
    have hfl : strIsEmpty "failed" = false := rfl
    by_cases hm : strIsEmpty (pyOrStr stderr stdout) <;>
      simp [applyBackupUpdate, he, hfl, hm]
  have h00 : (rc == 0) = false := by
    simpa using hrc
  simp only [runBackupJob, hj, hc, runBackupJobResolved, h00, Bool.false_eq_true, if_false]
  refine ⟨{ id := db.nextBackupId, jobId := jobId, status := "failed",
            startTime := startTime, endTime := some endTime,
            sizeBytes := none, fileCount := none,
            errorMessage := (if strIsEmpty (pyOrStr stderr stdout) then none
              else some (pyOrStr stderr stdout)),
            backupPath := some (backupDir ++ "/" ++ toString job.clientId ++ "/"
              ++ (job.name ++ "_" ++ startTime)) },
          ?_, ?_, ?_, ?_, ?_, ?_, ?_⟩
  · show ((db.addBackup jobId "running" startTime
      (backupDir ++ "/" ++ toString job.clientId ++ "/" ++ (job.name ++ "_" ++ startTime))).updateBackup
      db.nextBackupId (some "failed") (some endTime) none none
      (some (pyOrStr stderr stdout))).backups = _
    rw [hupd, happly]
  all_goals first | rfl | trivial

/-- Witness for C3's amended theorem: a failing run with non-empty stderr
stores and returns that stderr. -/
theorem run_failure_records_error_witness :
    sampleDb.freshIds = true ∧ (1 : Int) ≠ 0 ∧
    ∃ b : BackupRec,
      (runBackupJob sampleDb "/data/backups" 1 "t0" "t1" "t2"
          (fun _ => .exited 1 "boom" "rsync error 23") (FsTree.node [] [])).db.backups =
        b :: sampleDb.backups ∧
      b.id = sampleDb.nextBackupId ∧
      b.status = "failed" ∧
      b.endTime = some "t1" ∧
      b.errorMessage = (if strIsEmpty (pyOrStr "rsync error 23" "boom") then none
        else some (pyOrStr "rsync error 23" "boom")) ∧
      (runBackupJob sampleDb "/data/backups" 1 "t0" "t1" "t2"
          (fun _ => .exited 1 "boom" "rsync error 23") (FsTree.node [] [])).db.jobs =
        sampleDb.jobs ∧
      (runBackupJob sampleDb "/data/backups" 1 "t0" "t1" "t2"
          (fun _ => .exited 1 "boom" "rsync error 23") (FsTree.node [] [])).result =
        .err (pyOrStr "rsync error 23" "boom") :=
  ⟨by decide, by decide,
    run_failure_records_error sampleDb "/data/backups" 1 "t0" "t1" "t2" "boom"
      "rsync error 23" 1 (FsTree.node [] []) sampleJob sampleClient rfl rfl
      (by decide) (by decide) (by decide)⟩

/-- Counterexample to C3 as stated: a transfer that exits 1 with empty
stdout and stderr yields a Run finalized as `failed` whose stored error
text is NULL, and a returned error that is the empty string — not the
claimed non-empty captured error text. -/
theorem run_failure_empty_error_cex :
    (runBackupJob sampleDb "/data/backups" 1 "t0" "t1" "t2"
        (fun _ => .exited 1 "" "") (FsTree.node [] [])).result = .err "" ∧
    (runBackupJob sampleDb "/data/backups" 1 "t0" "t1" "t2"
        (fun _ => .exited 1 "" "") (FsTree.node [] [])).db.getBackup 2 =
      some { id := 2, jobId := 1, status := "failed", startTime := "t0",
             endTime := some "t1", sizeBytes := none, fileCount := none,
             errorMessage := none, backupPath := some "/data/backups/1/home_t0" } := by
  constructor
  · decide
  · decide

/-- C6: when the transfer process exceeds the 3600-second timeout,
`run_backup_job` finalizes the Run as `failed` with an end time (no Run
is left in `running` status) and the fixed message
`"Backup timed out after 1 hour"` — which contains the spec's quoted
text `"timed out after 1 hour"` — leaves every job row unchanged, and
returns failure with that same message. -/
theorem run_timeout_fails_fixed_message (db : Database) (backupDir : String) (jobId : Nat)
    (startTime endTime lastRunTime : String) (artifact : FsTree)
    (job : Job) (client : Client)
    (hj : db.getJob jobId = some job)
    (hc : db.getClient job.clientId = some client)
    (hf : db.freshIds = true)
    (he : strIsEmpty endTime = false) :
    ∃ b : BackupRec,
      (runBackupJob db backupDir jobId startTime endTime lastRunTime
          (fun _ => .timedOut) artifact).db.backups = b :: db.backups ∧
      b.id = db.nextBackupId ∧
      b.status = "failed" ∧
      b.endTime = some endTime ∧
      b.errorMessage = some backupTimeoutMessage ∧
      backupTimeoutMessage = "Backup " ++ "timed out after 1 hour" ∧
      timeoutSeconds = 3600 ∧
      (runBackupJob db backupDir jobId startTime endTime lastRunTime
          (fun _ => .timedOut) artifact).db.jobs = db.jobs ∧
      (runBackupJob db backupDir jobId startTime endTime lastRunTime
          (fun _ => .timedOut) artifact).result = .err backupTimeoutMessage := by
  have hupd := updateBackup_fresh db hf jobId startTime
    (backupDir ++ "/" ++ toString job.clientId ++ "/" ++ (job.name ++ "_" ++ startTime))
    (some "failed") (some endTime) none none (some backupTimeoutMessage)
  have happly : applyBackupUpdate
      { id := db.nextBackupId, jobId := jobId, status := "running", startTime := startTime,
        endTime := none, sizeBytes := none, fileCount := none, errorMessage := none,
        backupPath := some (backupDir ++ "/" ++ toString job.clientId ++ "/"
          ++ (job.name ++ "_" ++ startTime)) }
      (some "failed") (some endTime) none none (some backupTimeoutMessage) =
      { id := db.nextBackupId, jobId := jobId, status := "failed", startTime := startTime,
        endTime := some endTime, sizeBytes := none, fileCount := none,
        errorMessage := some backupTimeoutMessage,
        backupPath := some (backupDir ++ "/" ++ toString job.clientId ++ "/"
          ++ (job.name ++ "_" ++ startTime)) } := by
    have hfl : strIsEmpty "failed" = false := rfl
    have hmsg : strIsEmpty backupTimeoutMessage = false := rfl
    simp [applyBackupUpdate, he, hfl, hmsg]
  simp only [runBackupJob, hj, hc, runBackupJobResolved]
  refine ⟨{ id := db.nextBackupId, jobId := jobId, status := "failed",
            startTime := startTime, endTime := some endTime,
            sizeBytes := none, fileCount := none,
            errorMessage := some backupTimeoutMessage,
            backupPath := some (backupDir ++ "/" ++ toString job.clientId ++ "/"
              ++ (job.name ++ "_" ++ startTime)) },
          ?_, ?_, ?_, ?_, ?_, ?_, ?_, ?_, ?_⟩
  · show ((db.addBackup jobId "running" startTime
      (backupDir ++ "/" ++ toString job.clientId ++ "/" ++ (job.name ++ "_" ++ startTime))).updateBackup
      db.nextBackupId (some "failed") (some endTime) none none
      (some backupTimeoutMessage)).backups = _
    rw [hupd, happly]
  all_goals first | rfl | trivial

/-- Witness for C6 at a concrete store. -/
theorem run_timeout_fails_fixed_message_witness :
    sampleDb.freshIds = true ∧
    ∃ b : BackupRec,
      (runBackupJob sampleDb "/data/backups" 1 "t0" "t1" "t2"
          (fun _ => .timedOut) (FsTree.node [] [])).db.backups = b :: sampleDb.backups ∧
      b.id = sampleDb.nextBackupId ∧
      b.status = "failed" ∧
      b.endTime = some "t1" ∧
      b.errorMessage = some backupTimeoutMessage ∧
      backupTimeoutMessage = "Backup " ++ "timed out after 1 hour" ∧
      timeoutSeconds = 3600 ∧
      (runBackupJob sampleDb "/data/backups" 1 "t0" "t1" "t2"
          (fun _ => .timedOut) (FsTree.node [] [])).db.jobs = sampleDb.jobs ∧
      (runBackupJob sampleDb "/data/backups" 1 "t0" "t1" "t2"
          (fun _ => .timedOut) (FsTree.node [] [])).result = .err backupTimeoutMessage :=
  ⟨by decide,
    run_timeout_fails_fixed_message sampleDb "/data/backups" 1 "t0" "t1" "t2"
      (FsTree.node [] []) sampleJob sampleClient rfl rfl (by decide) (by decide)⟩

/-- C4: whenever `run_backup_job` creates a Run record (the job and
client resolve), exactly one process-outcome path runs and the Run is
finalized exactly once before the call returns: the store gains exactly
one Run, created as `running` (one insert in the trace) and written
exactly once afterwards (one Run update in the trace, and that update is
a finalizing one), ending `completed` or `failed` — never again
`running` — with its end time set. -/
theorem run_finalized_exactly_once (db : Database) (backupDir : String) (jobId : Nat)
    (startTime endTime lastRunTime : String) (pr : ProcResult) (artifact : FsTree)
    (job : Job) (client : Client)
    (hj : db.getJob jobId = some job)
    (hc : db.getClient job.clientId = some client)
    (hf : db.freshIds = true)
    (he : strIsEmpty endTime = false) :
    ∃ b : BackupRec,
      (runBackupJob db backupDir jobId startTime endTime lastRunTime
          (fun _ => pr) artifact).db.backups = b :: db.backups ∧
      b.id = db.nextBackupId ∧
      b.startTime = startTime ∧
      (b.status = "completed" ∨ b.status = "failed") ∧
      b.status ≠ "running" ∧
      b.endTime = some endTime ∧
      (runBackupJob db backupDir jobId startTime endTime lastRunTime
          (fun _ => pr) artifact).trace.countP DbOp.isInsertBackup = 1 ∧
      (runBackupJob db backupDir jobId startTime endTime lastRunTime
          (fun _ => pr) artifact).trace.countP DbOp.isInsertRunning = 1 ∧
      (runBackupJob db backupDir jobId startTime endTime lastRunTime
          (fun _ => pr) artifact).trace.countP DbOp.isWriteBackup = 1 ∧
      (runBackupJob db backupDir jobId startTime endTime lastRunTime
          (fun _ => pr) artifact).trace.countP DbOp.isFinalizingWrite = 1 := by
  have hcomp : strIsEmpty "completed" = false := rfl
  have hfl : strIsEmpty "failed" = false := rfl
  have htmsg : strIsEmpty backupTimeoutMessage = false := rfl
  cases pr with
  | exited rc stdout stderr =>
    by_cases hrc : (rc == 0) = true
    · have hupd := updateBackup_fresh db hf jobId startTime
        (backupDir ++ "/" ++ toString job.clientId ++ "/" ++ (job.name ++ "_" ++ startTime))
        (some "completed") (some endTime) (some artifact.size) (some artifact.fileCount) none
      simp only [runBackupJob, hj, hc, runBackupJobResolved]
      rw [if_pos hrc]
      refine ⟨applyBackupUpdate
        { id := db.nextBackupId, jobId := jobId, status := "running", startTime := startTime,
          endTime := none, sizeBytes := none, fileCount := none, errorMessage := none,
          backupPath := some (backupDir ++ "/" ++ toString job.clientId ++ "/"
            ++ (job.name ++ "_" ++ startTime)) }
        (some "completed") (some endTime) (some artifact.size) (some artifact.fileCount)
        none, ?_, ?_, ?_, ?_, ?_, ?_, ?_, ?_, ?_, ?_⟩
      · exact hupd
      all_goals first
        | rfl
        | simp [applyBackupUpdate, he, hcomp, truthy,
            List.countP_cons, DbOp.isInsertBackup, DbOp.isInsertRunning,
            DbOp.isWriteBackup, DbOp.isFinalizingWrite]
    · have h00 : (rc == 0) = false := by simpa using hrc
      have hupd := updateBackup_fresh db hf jobId startTime
        (backupDir ++ "/" ++ toString job.clientId ++ "/" ++ (job.name ++ "_" ++ startTime))
        (some "failed") (some endTime) none none (some (pyOrStr stderr stdout))
      simp only [runBackupJob, hj, hc, runBackupJobResolved, h00, Bool.false_eq_true, if_false]
      refine ⟨applyBackupUpdate
        { id := db.nextBackupId, jobId := jobId, status := "running", startTime := startTime,
          endTime := none, sizeBytes := none, fileCount := none, errorMessage := none,
          backupPath := some (backupDir ++ "/" ++ toString job.clientId ++ "/"
            ++ (job.name ++ "_" ++ startTime)) }
        (some "failed") (some endTime) none none
        (some (pyOrStr stderr stdout)), ?_, ?_, ?_, ?_, ?_, ?_, ?_, ?_, ?_, ?_⟩
      · exact hupd
      all_goals first
        | rfl
        | (by_cases hm : strIsEmpty (pyOrStr stderr stdout) = true <;>
            simp [applyBackupUpdate, he, hfl, hm, truthy,
              List.countP_cons, DbOp.isInsertBackup, DbOp.isInsertRunning,
              DbOp.isWriteBackup, DbOp.isFinalizingWrite])
  | timedOut =>
    have hupd := updateBackup_fresh db hf jobId startTime
      (backupDir ++ "/" ++ toString job.clientId ++ "/" ++ (job.name ++ "_" ++ startTime))
      (some "failed") (some endTime) none none (some backupTimeoutMessage)
    simp only [runBackupJob, hj, hc, runBackupJobResolved]
    refine ⟨applyBackupUpdate
      { id := db.nextBackupId, jobId := jobId, status := "running", startTime := startTime,
        endTime := none, sizeBytes := none, fileCount := none, errorMessage := none,
        backupPath := some (backupDir ++ "/" ++ toString job.clientId ++ "/"
          ++ (job.name ++ "_" ++ startTime)) }
      (some "failed") (some endTime) none none
      (some backupTimeoutMessage), ?_, ?_, ?_, ?_, ?_, ?_, ?_, ?_, ?_, ?_⟩
    · exact hupd
    all_goals first
      | rfl
      | simp [applyBackupUpdate, he, hfl, htmsg, truthy,
          List.countP_cons, DbOp.isInsertBackup, DbOp.isInsertRunning,
          DbOp.isWriteBackup, DbOp.isFinalizingWrite]
  | raised msg =>
    have hupd := updateBackup_fresh db hf jobId startTime
      (backupDir ++ "/" ++ toString job.clientId ++ "/" ++ (job.name ++ "_" ++ startTime))
      (some "failed") (some endTime) none none (some msg)
    simp only [runBackupJob, hj, hc, runBackupJobResolved]
    refine ⟨applyBackupUpdate
      { id := db.nextBackupId, jobId := jobId, status := "running", startTime := startTime,
        endTime := none, sizeBytes := none, fileCount := none, errorMessage := none,
        backupPath := some (backupDir ++ "/" ++ toString job.clientId ++ "/"
          ++ (job.name ++ "_" ++ startTime)) }
      (some "failed") (some endTime) none none (some msg), ?_, ?_, ?_, ?_, ?_, ?_, ?_, ?_, ?_, ?_⟩
    · exact hupd
    all_goals first
      | rfl
      | (by_cases hm : strIsEmpty msg = true <;>
          simp [applyBackupUpdate, he, hfl, hm, truthy,
            List.countP_cons, DbOp.isInsertBackup, DbOp.isInsertRunning,
            DbOp.isWriteBackup, DbOp.isFinalizingWrite])

/-- Witness for C4 at a concrete store and a timeout outcome. -/
theorem run_finalized_exactly_once_witness :
    sampleDb.freshIds = true ∧
    ∃ b : BackupRec,
      (runBackupJob sampleDb "/data/backups" 1 "t0" "t1" "t2"
          (fun _ => ProcResult.timedOut) (FsTree.node [] [])).db.backups =
        b :: sampleDb.backups ∧
      b.id = sampleDb.nextBackupId ∧
      b.startTime = "t0" ∧
      (b.status = "completed" ∨ b.status = "failed") ∧
      b.status ≠ "running" ∧
      b.endTime = some "t1" ∧
      (runBackupJob sampleDb "/data/backups" 1 "t0" "t1" "t2"
          (fun _ => ProcResult.timedOut) (FsTree.node [] [])).trace.countP
        DbOp.isInsertBackup = 1 ∧
      (runBackupJob sampleDb "/data/backups" 1 "t0" "t1" "t2"
          (fun _ => ProcResult.timedOut) (FsTree.node [] [])).trace.countP
        DbOp.isInsertRunning = 1 ∧
      (runBackupJob sampleDb "/data/backups" 1 "t0" "t1" "t2"
          (fun _ => ProcResult.timedOut) (FsTree.node [] [])).trace.countP
        DbOp.isWriteBackup = 1 ∧
      (runBackupJob sampleDb "/data/backups" 1 "t0" "t1" "t2"
          (fun _ => ProcResult.timedOut) (FsTree.node [] [])).trace.countP
        DbOp.isFinalizingWrite = 1 :=
  ⟨by decide,
    run_finalized_exactly_once sampleDb "/data/backups" 1 "t0" "t1" "t2"
      ProcResult.timedOut (FsTree.node [] []) sampleJob sampleClient rfl rfl
      (by decide) (by decide)⟩

/-- Counterexample to C5 as stated: `schedule_job` never consults the
job's enabled flag. On a store whose only job is disabled yet has the
valid 5-field schedule `"0 2 * * *"`, a trigger IS registered (with a
cron constructor that accepts those fields, as apscheduler does). -/
theorem schedule_ignores_enabled_cex :
    (disabledDb.getJob 1).map (fun j => j.enabled) = some false ∧
    scheduleJob disabledDb [] 1 (fun _ => true) =
      [(1, { minute := "0", hour := "2", day := "*", month := "*", dayOfWeek := "*" })] := by
  constructor
  · decide
  · decide

/-- C5 (amended): `schedule_job` registers a trigger exactly when the
job exists, its schedule is truthy, the schedule splits into exactly 5
whitespace-separated fields, and the cron-trigger constructor (the
external apscheduler validation, a parameter here) accepts them — the
enabled flag is NOT consulted, so a disabled job with a valid schedule
is scheduled too; in every other case the trigger table is returned
unchanged, and no error reaches the caller (the operation is total —
failures are only logged). -/
theorem schedule_registers_iff (db : Database) (sched : List (Nat × CronTrigger))
    (jobId : Nat) (cronOk : List String → Bool) :
    (db.getJob jobId = none → scheduleJob db sched jobId cronOk = sched) ∧
    (∀ job, db.getJob jobId = some job →
      (truthy job.schedule = false → scheduleJob db sched jobId cronOk = sched) ∧
      (truthy job.schedule = true →
        ((pySplit (job.schedule.getD "")).length ≠ 5 →
          scheduleJob db sched jobId cronOk = sched) ∧
        ((pySplit (job.schedule.getD "")).length = 5 →
          (cronOk (pySplit (job.schedule.getD "")) = false →
            scheduleJob db sched jobId cronOk = sched) ∧
          (cronOk (pySplit (job.schedule.getD "")) = true →
            scheduleJob db sched jobId cronOk =
              replaceTrigger sched jobId
                { minute := (pySplit (job.schedule.getD "")).getD 0 "",
                  hour := (pySplit (job.schedule.getD "")).getD 1 "",
                  day := (pySplit (job.schedule.getD "")).getD 2 "",
                  month := (pySplit (job.schedule.getD "")).getD 3 "",
                  dayOfWeek := (pySplit (job.schedule.getD "")).getD 4 "" })))) := by
  constructor
  · intro h
    simp [scheduleJob, h]
  · intro job hjob
    refine ⟨fun hts => ?_, fun hts => ⟨fun hlen => ?_, fun hlen => ⟨fun hok => ?_, fun hok => ?_⟩⟩⟩
    · simp [scheduleJob, hjob, hts]
    · simp [scheduleJob, hjob, hts, hlen]
    · simp [scheduleJob, hjob, hts, hlen, hok]
    · simp [scheduleJob, hjob, hts, hlen, hok]

/-- Witness for C5's amended theorem: the sample enabled job with
schedule `"0 2 * * *"` gets its trigger registered, replacing any
previous one. -/
theorem schedule_registers_iff_witness :
    scheduleJob sampleDb [] 1 (fun _ => true) =
      replaceTrigger [] 1
        { minute := (pySplit (sampleJob.schedule.getD "")).getD 0 "",
          hour := (pySplit (sampleJob.schedule.getD "")).getD 1 "",
          day := (pySplit (sampleJob.schedule.getD "")).getD 2 "",
          month := (pySplit (sampleJob.schedule.getD "")).getD 3 "",
          dayOfWeek := (pySplit (sampleJob.schedule.getD "")).getD 4 "" } := by
  have h := (schedule_registers_iff sampleDb [] 1 (fun _ => true)).2 sampleJob rfl
  exact (((h.2 (by decide)).2 (by decide)).2 (by decide))

/-- Summing a mapped list is the same fold the statistics claim
describes. -/
theorem sum_map_eq_foldr {α : Type} (l : List α) (f : α → Nat) :
    (l.map f).sum = l.foldr (fun a acc => f a + acc) 0 := by
  induction l with
  | nil => rfl
  | cons x xs ih => simp [ih]

/-- C7: `get_statistics` reports the client count, job count,
enabled-job count and, over the most recent at-most-1000 Runs, the total,
completed and failed counts, the byte sum over completed Runs with a
NULL size contributing 0 (the call never fails on a NULL size — the
aggregator is a total function), and that sum divided by `1024^3`
rounded to 2 decimal places; on the spec's scenario of two completed
Runs of sizes 100 and 300 plus one failed Run it reports 2 completed, 1
failed, 400 bytes. -/
theorem statistics_characterization :
    (∀ db : Database,
      (getStatistics db).totalClients = db.clients.length ∧
      (getStatistics db).totalJobs = db.jobs.length ∧
      (getStatistics db).enabledJobs = db.jobs.countP (fun j => j.enabled) ∧
      (getStatistics db).totalBackups = (db.getAllBackups 1000).length ∧
      (getStatistics db).successfulBackups =
        (db.getAllBackups 1000).countP (fun b => b.status == "completed") ∧
      (getStatistics db).failedBackups =
        (db.getAllBackups 1000).countP (fun b => b.status == "failed") ∧
      (getStatistics db).totalSizeBytes =
        ((db.getAllBackups 1000).filter (fun b => b.status == "completed")).foldr
          (fun b acc => (match b.sizeBytes with | none => 0 | some n => n) + acc) 0 ∧
      (getStatistics db).totalSizeGb =
        round2 (((getStatistics db).totalSizeBytes : ℚ) / (1024 ^ 3 : ℚ))) ∧
    (getStatistics statsDb).successfulBackups = 2 ∧
    (getStatistics statsDb).failedBackups = 1 ∧
    (getStatistics statsDb).totalSizeBytes = 400 := by
  refine ⟨fun db => ⟨rfl, rfl, ?_, rfl, ?_, ?_, ?_, rfl⟩, by decide, by decide, by decide⟩
  · simp [getStatistics, List.countP_eq_length_filter]
  · simp [getStatistics, List.countP_eq_length_filter]
  · simp [getStatistics, List.countP_eq_length_filter]
  · show (((db.getAllBackups 1000).filter (fun b => b.status == "completed")).map
        (fun b => b.sizeBytes.getD 0)).sum = _
    rw [sum_map_eq_foldr]
    congr 1
    funext b acc
    cases b.sizeBytes <;> rfl

end Plumbus

